import Mathlib

/-!
Shallow embedding of the risk-management core of the
stock-market-automate-trades repository:
`src/risk_management/risk_calculator.py` (RiskCalculator) and
`src/risk_management/portfolio_manager.py` (PortfolioRiskManager).

Prices and monetary amounts are embedded as exact rationals (ℚ); Python
`int(...)` truncation toward zero is `pyInt`; Python exceptions raised by
input validation are `Except` errors; the wall-clock date consulted by
`date.today()` is an explicit `today : ℕ` argument to each operation that
reads it.
-/

/-- Python `int(q)` on a float/rational: truncation toward zero. -/
def pyInt (q : ℚ) : ℤ :=
  if q < 0 then -(Int.floor (-q)) else Int.floor q

/-- `ConvictionLevel` enum from risk_calculator.py. -/
inductive ConvictionLevel
  | below_low
  | low
  | medium
  | high
  | above_high
  | highest
deriving DecidableEq, Repr

/-- `CONVICTION_RISK_MAP`: risk fraction per conviction level. -/
def conviction_risk_map : ConvictionLevel → ℚ
  | .below_low => 25 / 10000
  | .low => 50 / 10000
  | .medium => 100 / 10000
  | .high => 150 / 10000
  | .above_high => 175 / 10000
  | .highest => 200 / 10000

/-- Validation errors raised (Python `ValueError`) by the sizing functions. -/
inductive CalcError
  | entryNotPositive
  | stopNotPositive
  | entryEqualsStop
  | stopPointsNotPositive
  | lotSizeNotPositive
deriving DecidableEq, Repr

/-- `RiskAllocation` dataclass from risk_calculator.py. -/
structure RiskAllocation where
  capital : ℚ
  conviction_level : ConvictionLevel
  risk_percent : ℚ
  risk_amount : ℚ
  entry_price : ℚ
  stop_loss : ℚ
  risk_per_unit : ℚ
  max_quantity_by_risk : ℤ
  max_quantity_by_entry : ℤ
  final_quantity : ℤ
  total_investment : ℚ
  actual_risk_amount : ℚ
  actual_risk_percent : ℚ
deriving DecidableEq, Repr

/-- `RiskCalculator.calculate_position_size_equity`.  `capital` stands for
`self.capital`; the three leading `if`s are the source's `ValueError`s. -/
def calculate_position_size_equity (capital : ℚ) (entry_price stop_loss : ℚ)
    (conviction : ConvictionLevel) (max_position_percent : ℚ) :
    Except CalcError RiskAllocation :=
  if entry_price ≤ 0 then .error .entryNotPositive
  else if stop_loss ≤ 0 then .error .stopNotPositive
  else if entry_price = stop_loss then .error .entryEqualsStop
  else
    let risk_per_share := |entry_price - stop_loss|
    let risk_percent := conviction_risk_map conviction
    let risk_amount := capital * risk_percent
    let max_shares_by_risk := pyInt (risk_amount / risk_per_share)
    let max_investment := capital * max_position_percent
    let max_shares_by_entry := pyInt (max_investment / entry_price)
    let final_quantity := min max_shares_by_risk max_shares_by_entry
    let total_investment := (final_quantity : ℚ) * entry_price
    let actual_risk_amount := (final_quantity : ℚ) * risk_per_share
    let actual_risk_percent :=
      if 0 < capital then actual_risk_amount / capital else 0
    .ok ⟨capital, conviction, risk_percent, risk_amount, entry_price,
      stop_loss, risk_per_share, max_shares_by_risk, max_shares_by_entry,
      final_quantity, total_investment, actual_risk_amount,
      actual_risk_percent⟩

/-- `RiskCalculator.calculate_position_size_fo` (lot-based F&O sizing).
`max_lots_by_entry` is the hard-coded `999` placeholder of the source. -/
def calculate_position_size_fo (capital : ℚ) (entry_price stop_loss_points : ℚ)
    (lot_size : ℤ) (conviction : ConvictionLevel) :
    Except CalcError RiskAllocation :=
  if entry_price ≤ 0 then .error .entryNotPositive
  else if stop_loss_points ≤ 0 then .error .stopPointsNotPositive
  else if lot_size ≤ 0 then .error .lotSizeNotPositive
  else
    let risk_per_lot := stop_loss_points * (lot_size : ℚ)
    let risk_percent := conviction_risk_map conviction
    let risk_amount := capital * risk_percent
    let max_lots_by_risk := pyInt (risk_amount / risk_per_lot)
    let max_lots_by_entry : ℤ := 999
    let final_lots := min max_lots_by_risk max_lots_by_entry
    let final_quantity := final_lots * lot_size
    let total_investment := entry_price * (final_quantity : ℚ)
    let actual_risk_amount := (final_lots : ℚ) * risk_per_lot
    let actual_risk_percent :=
      if 0 < capital then actual_risk_amount / capital else 0
    .ok ⟨capital, conviction, risk_percent, risk_amount, entry_price,
      entry_price - stop_loss_points, risk_per_lot, max_lots_by_risk,
      max_lots_by_entry, final_quantity, total_investment,
      actual_risk_amount, actual_risk_percent⟩

/-- Outcome message of `validate_risk_reward`: either the degenerate-risk
failure string "Risk cannot be zero", or the R:R report (which records
whether the ratio meets the minimum). -/
inductive RRMessage
  | riskCannotBeZero
  | rrRatioReport (meets : Bool)
deriving DecidableEq, Repr

/-- `RiskCalculator.validate_risk_reward`: returns
`(is_valid, rr_ratio, message)`; the `risk == 0` case returns
`(False, 0, "Risk cannot be zero")` in the source. -/
def validate_risk_reward (entry_price stop_loss target_price : ℚ)
    (min_rr_ratio : ℚ) : Bool × ℚ × RRMessage :=
  let risk := |entry_price - stop_loss|
  let reward := |target_price - entry_price|
  if risk = 0 then (false, 0, .riskCannotBeZero)
  else
    let rr_ratio := reward / risk
    let is_valid : Bool := decide (min_rr_ratio ≤ rr_ratio)
    (is_valid, rr_ratio, .rrRatioReport is_valid)

/-- `Position` dataclass from portfolio_manager.py; `entry_time` is an
abstract timestamp. -/
structure Position where
  symbol : String
  quantity : ℤ
  entry_price : ℚ
  current_price : ℚ
  stop_loss : ℚ
  target : ℚ
  pnl : ℚ
  entry_time : ℕ
  sector : Option String
deriving DecidableEq, Repr

/-- `Position.position_value`: `abs(quantity) * current_price`. -/
def Position.position_value (p : Position) : ℚ :=
  (p.quantity.natAbs : ℚ) * p.current_price

/-- `TradeRecord` dataclass; `pnl = none` while the trade is still open. -/
structure TradeRecord where
  symbol : String
  action : String
  quantity : ℕ
  price : ℚ
  timestamp : ℕ
  pnl : Option ℚ
deriving DecidableEq, Repr

/-- The mutable state of `PortfolioRiskManager`: configuration fields set in
`__init__` plus the daily-tracking fields.  `active_positions` is the
insertion-ordered dict, embedded as a list unique in `symbol` on all
reachable states. -/
structure Ledger where
  initial_capital : ℚ
  capital : ℚ
  max_positions : ℕ
  max_daily_loss_percent : ℚ
  max_trades_per_day : ℕ
  max_sector_exposure_percent : ℚ
  current_date : ℕ
  daily_loss : ℚ
  daily_profit : ℚ
  trades_today : ℕ
  active_positions : List Position
  todays_trades : List TradeRecord
deriving DecidableEq, Repr

/-- Dict lookup `self.active_positions[symbol]` (first, hence unique, match). -/
def Ledger.findPosition (s : Ledger) (symbol : String) : Option Position :=
  s.active_positions.find? (fun p => p.symbol = symbol)

/-- `PortfolioRiskManager._check_and_reset_daily_counters`, with the wall
clock `date.today()` passed explicitly. -/
def check_and_reset_daily_counters (today : ℕ) (s : Ledger) : Ledger :=
  if today ≠ s.current_date then
    { s with current_date := today, daily_loss := 0, daily_profit := 0,
             trades_today := 0, todays_trades := [] }
  else s

/-- Rejection reasons of `can_take_trade`, each carrying the data the
source interpolates into its reason string. -/
inductive Reason
  | maxPositionsActive (max_positions : ℕ)
  | dailyLossLimitReached (loss_percent : ℚ)
  | maxTradesPerDayReached (max_trades : ℕ)
  | insufficientCapital (needed available : ℚ)
  | sectorExposureExceeded (sector : String)
  | allChecksPassed
deriving DecidableEq, Repr

/-- `PortfolioRiskManager._calculate_sector_exposure`. -/
def calculate_sector_exposure (sector : String) (s : Ledger) : ℚ :=
  ((s.active_positions.filter (fun p => p.sector = some sector)).map
    (fun p => p.position_value)).sum

/-- The five checks of `can_take_trade`, evaluated on the (already
day-reset) state: fixed order, first failing check wins.  A `sector`
argument that is `none` or the empty string skips check 5 (Python
`if sector:`). -/
def canAdmitChecks (estimated_position_value : ℚ) (sector : Option String)
    (s : Ledger) : Bool × Reason :=
  if s.max_positions ≤ s.active_positions.length then
    (false, .maxPositionsActive s.max_positions)
  else
    let daily_loss_percent := |s.daily_loss| / s.initial_capital
    if s.max_daily_loss_percent ≤ daily_loss_percent then
      (false, .dailyLossLimitReached daily_loss_percent)
    else if s.max_trades_per_day ≤ s.trades_today then
      (false, .maxTradesPerDayReached s.max_trades_per_day)
    else
      let used_capital := (s.active_positions.map
        (fun p => p.position_value)).sum
      let available_capital := s.capital - used_capital
      if available_capital < estimated_position_value then
        (false, .insufficientCapital estimated_position_value
          available_capital)
      else
        match sector with
        | some sec =>
          if sec = "" then (true, .allChecksPassed)
          else
            let sector_exposure := calculate_sector_exposure sec s
            let max_sector_value := s.capital * s.max_sector_exposure_percent
            if max_sector_value < sector_exposure + estimated_position_value
            then (false, .sectorExposureExceeded sec)
            else (true, .allChecksPassed)
        | none => (true, .allChecksPassed)

/-- `PortfolioRiskManager.can_take_trade`: lazy day-reset, then the five
checks; returns the decision together with the post-call state.  The
`symbol` argument is only logged by the source and does not influence the
decision, so it is omitted here. -/
def can_take_trade (today : ℕ) (estimated_position_value : ℚ)
    (sector : Option String) (s : Ledger) : (Bool × Reason) × Ledger :=
  let s := check_and_reset_daily_counters today s
  (canAdmitChecks estimated_position_value sector s, s)

/-- Body of `add_position` after the day-reset: duplicate symbol is a
silent no-op; otherwise insert, bump `trades_today`, append a
`TradeRecord` with `pnl = None`. -/
def add_position_body (position : Position) (s : Ledger) : Ledger :=
  if (s.findPosition position.symbol).isSome then s
  else
    { s with
      active_positions := s.active_positions ++ [position],
      trades_today := s.trades_today + 1,
      todays_trades := s.todays_trades ++
        [{ symbol := position.symbol,
           action := if 0 < position.quantity then "BUY" else "SELL",
           quantity := position.quantity.natAbs,
           price := position.entry_price,
           timestamp := position.entry_time,
           pnl := none }] }

/-- `PortfolioRiskManager.add_position`: day-reset first, then the body. -/
def add_position (today : ℕ) (position : Position) (s : Ledger) : Ledger :=
  add_position_body position (check_and_reset_daily_counters today s)

/-- The signed realized P&L computed by `remove_position`:
`(exit − entry) × qty` for longs, `(entry − exit) × |qty|` for shorts. -/
def realizedPnl (position : Position) (exit_price : ℚ) : ℚ :=
  if 0 < position.quantity then
    (exit_price - position.entry_price) * (position.quantity : ℚ)
  else
    (position.entry_price - exit_price) * (position.quantity.natAbs : ℚ)

/-- Fill the first still-open (`pnl = None`) trade record matching
`symbol` with the realized P&L (the `for ... break` loop of the source). -/
def fillFirstOpenRecord (symbol : String) (pnl : ℚ) :
    List TradeRecord → List TradeRecord
  | [] => []
  | t :: ts =>
    if t.symbol = symbol ∧ t.pnl = none then { t with pnl := some pnl } :: ts
    else t :: fillFirstOpenRecord symbol pnl ts

/-- `PortfolioRiskManager.remove_position`: note the source performs NO
day-reset here.  Unknown symbol is a no-op; otherwise realize P&L, add its
magnitude to `daily_loss` when negative else to `daily_profit`, complete
the trade record, delete the position. -/
def remove_position (symbol : String) (exit_price : ℚ)
    (_exit_reason : String) (s : Ledger) : Ledger :=
  match s.findPosition symbol with
  | none => s
  | some position =>
    let pnl := realizedPnl position exit_price
    let s :=
      if pnl < 0 then { s with daily_loss := s.daily_loss + |pnl| }
      else { s with daily_profit := s.daily_profit + pnl }
    { s with
      todays_trades := fillFirstOpenRecord symbol pnl s.todays_trades,
      active_positions :=
        s.active_positions.eraseP (fun p => p.symbol = symbol) }

/-- `PortfolioRiskManager.update_position_price`: update the matching
position's `current_price` and recompute its unrealized `pnl`; no-op if
the symbol is unknown.  No day-reset, no counter changes. -/
def update_position_price (symbol : String) (current_price : ℚ)
    (s : Ledger) : Ledger :=
  { s with
    active_positions := s.active_positions.map (fun p =>
      if p.symbol = symbol then
        { p with
          current_price := current_price,
          pnl := if 0 < p.quantity then
              (current_price - p.entry_price) * (p.quantity : ℚ)
            else (p.entry_price - current_price) * (p.quantity.natAbs : ℚ) }
      else p) }

/-- The summary dictionary built by `get_portfolio_summary`. -/
structure DaySummary where
  capital : ℚ
  used_capital : ℚ
  available_capital : ℚ
  capital_utilization_percent : ℚ
  active_positions : ℕ
  max_positions : ℕ
  trades_today : ℕ
  max_trades_per_day : ℕ
  unrealized_pnl : ℚ
  daily_profit : ℚ
  daily_loss : ℚ
  net_daily_pnl : ℚ
  daily_loss_percent : ℚ
  daily_loss_limit_percent : ℚ
  risk_remaining_percent : ℚ
  can_trade_more : Bool
deriving DecidableEq, Repr

/-- Body of `get_portfolio_summary` after the day-reset (pure read). -/
def get_portfolio_summary_body (s : Ledger) : DaySummary :=
  let total_pnl := (s.active_positions.map (fun p => p.pnl)).sum
  let net_daily_pnl := s.daily_profit - s.daily_loss
  let used_capital := (s.active_positions.map
    (fun p => p.position_value)).sum
  let capital_utilization :=
    if 0 < s.capital then used_capital / s.capital * 100 else 0
  let daily_loss_percent := |s.daily_loss| / s.initial_capital * 100
  { capital := s.capital,
    used_capital := used_capital,
    available_capital := s.capital - used_capital,
    capital_utilization_percent := capital_utilization,
    active_positions := s.active_positions.length,
    max_positions := s.max_positions,
    trades_today := s.trades_today,
    max_trades_per_day := s.max_trades_per_day,
    unrealized_pnl := total_pnl,
    daily_profit := s.daily_profit,
    daily_loss := s.daily_loss,
    net_daily_pnl := net_daily_pnl,
    daily_loss_percent := daily_loss_percent,
    daily_loss_limit_percent := s.max_daily_loss_percent * 100,
    risk_remaining_percent :=
      max 0 (s.max_daily_loss_percent * 100 - daily_loss_percent),
    can_trade_more :=
      decide (s.trades_today < s.max_trades_per_day) &&
      decide (daily_loss_percent < s.max_daily_loss_percent * 100) }

/-- `PortfolioRiskManager.get_portfolio_summary`: day-reset, then the
read-only snapshot; returns the snapshot with the post-call state. -/
def get_portfolio_summary (today : ℕ) (s : Ledger) : DaySummary × Ledger :=
  let s := check_and_reset_daily_counters today s
  (get_portfolio_summary_body s, s)

/-- The day-rollover reset as the spec states it: the three counters
zeroed, the day's trade log emptied, the stored date set to today, all
other state untouched.  Used to compare the source's reset against the
spec's description. -/
def dayResetSpec (today : ℕ) (s : Ledger) : Ledger :=
  { s with current_date := today, daily_loss := 0, daily_profit := 0,
           trades_today := 0, todays_trades := [] }

/-- A long 10-share position in "AAA" at entry 50, currently marked 50. -/
def posA : Position :=
  { symbol := "AAA", quantity := 10, entry_price := 50, current_price := 50,
    stop_loss := 45, target := 60, pnl := 0, entry_time := 0,
    sector := some "Energy" }

/-- Ledger holding only `posA`, default-like limits, capital 100000. -/
def exampleLedgerMTM : Ledger :=
  { initial_capital := 100000, capital := 100000, max_positions := 3,
    max_daily_loss_percent := 1/50, max_trades_per_day := 3,
    max_sector_exposure_percent := 1/2, current_date := 0, daily_loss := 0,
    daily_profit := 0, trades_today := 0, active_positions := [posA],
    todays_trades := [] }

/-- Ledger mid-day on stored date 0: one open position, one open trade
record, nonzero counters (`trades_today = 1`, `daily_loss = 500`). -/
def exampleLedgerMidday : Ledger :=
  { initial_capital := 100000, capital := 100000, max_positions := 3,
    max_daily_loss_percent := 1/50, max_trades_per_day := 3,
    max_sector_exposure_percent := 1/2, current_date := 0,
    daily_loss := 500, daily_profit := 200, trades_today := 1,
    active_positions := [posA],
    todays_trades := [{ symbol := "AAA", action := "BUY", quantity := 10,
                        price := 50, timestamp := 0, pnl := none }] }

/-- Ledger whose daily loss fraction exactly equals the 2% cap
(2000 / 100000 = 1/50) with no open positions. -/
def exampleLedgerAtCap : Ledger :=
  { initial_capital := 100000, capital := 100000, max_positions := 3,
    max_daily_loss_percent := 1/50, max_trades_per_day := 3,
    max_sector_exposure_percent := 1/2, current_date := 0,
    daily_loss := 2000, daily_profit := 0, trades_today := 0,
    active_positions := [], todays_trades := [] }

/-- Ledger where check 1 and check 2 would both fail: `max_positions = 1`
with one open position, and daily loss 3000 beyond the 2% cap. -/
def exampleLedgerBothFail : Ledger :=
  { initial_capital := 100000, capital := 100000, max_positions := 1,
    max_daily_loss_percent := 1/50, max_trades_per_day := 3,
    max_sector_exposure_percent := 1/2, current_date := 0,
    daily_loss := 3000, daily_profit := 0, trades_today := 1,
    active_positions := [posA], todays_trades := [] }

/-- Fresh ledger with no positions and zeroed counters. -/
def exampleLedgerFresh : Ledger :=
  { initial_capital := 300000, capital := 300000, max_positions := 3,
    max_daily_loss_percent := 1/50, max_trades_per_day := 3,
    max_sector_exposure_percent := 1/2, current_date := 0, daily_loss := 0,
    daily_profit := 0, trades_today := 0, active_positions := [],
    todays_trades := [] }

/-! ## Helper lemmas -/

theorem pyInt_nonneg {q : ℚ} (h : 0 ≤ q) : 0 ≤ pyInt q := by
  unfold pyInt
  rw [if_neg (not_lt.mpr h)]
  exact Int.floor_nonneg.mpr h

theorem pyInt_le {q : ℚ} (h : 0 ≤ q) : (pyInt q : ℚ) ≤ q := by
  unfold pyInt
  rw [if_neg (not_lt.mpr h)]
  exact Int.floor_le q

theorem conviction_risk_map_pos (c : ConvictionLevel) :
    0 < conviction_risk_map c := by
  cases c <;> norm_num [conviction_risk_map]

theorem check_and_reset_same_date (s : Ledger) :
    check_and_reset_daily_counters s.current_date s = s := by
  simp [check_and_reset_daily_counters]

theorem find?_append_of_none {α : Type} (p : α → Bool) {l₁ : List α}
    (l₂ : List α) (h : l₁.find? p = none) :
    (l₁ ++ l₂).find? p = l₂.find? p := by
  induction l₁ with
  | nil => rfl
  | cons a t ih =>
    rw [List.find?_cons] at h
    rcases hpa : p a with _ | _
    · rw [List.cons_append, List.find?_cons, hpa]
      exact ih (by rwa [hpa] at h)
    · rw [hpa] at h
      exact absurd h (by simp)

/-! ## Claim theorems -/

/-- C7: numeric parity on the spec's concrete scenarios.  Scenario A
(capital 300000, entry 7780, stop-distance 10, lot size 250, medium
conviction) yields riskPerLot 2500, riskAmount 3000, lotsByRisk 1, final
quantity 250, actual risk 2500; Scenario C (capital 200000, entry 3950,
stop 3850, medium conviction, allocation fraction 0.30) yields riskAmount
2000, boundByRisk 20, boundByAllocation 15, final quantity 15. -/
theorem C7_scenario_parity :
    (calculate_position_size_fo 300000 7780 10 250
        ConvictionLevel.medium).toOption.map
      (fun r => (r.risk_per_unit, r.risk_amount, r.max_quantity_by_risk,
        r.final_quantity, r.actual_risk_amount))
      = some (2500, 3000, 1, 250, 2500)
    ∧ (calculate_position_size_equity 200000 3950 3850
        ConvictionLevel.medium (3/10)).toOption.map
      (fun r => (r.risk_amount, r.max_quantity_by_risk,
        r.max_quantity_by_entry, r.final_quantity))
      = some (2000, 20, 15, 15) := by
  constructor <;>
    norm_num [calculate_position_size_fo, calculate_position_size_equity,
      conviction_risk_map, pyInt, Except.toOption]

/-- C10: used capital (check 4) and sector exposure (check 5) are
mark-to-market sums of `abs(quantity) * current_price` over open
positions, so a price update — which changes no day counter and no
position set — can flip a subsequent admission decision with identical
arguments.  On a ledger with one 10-share position marked at 50, a 99000
proposal and a 49000 Energy-sector proposal are both admitted; after
`update_position_price` remarks the position to 1000, the same 99000
proposal fails check 4 (insufficient capital) and the same 49000 Energy
proposal fails check 5 (sector exposure), while trades, daily P&L,
position count and stored date are unchanged by the update. -/
theorem C10_mark_to_market_flip :
    (can_take_trade 0 99000 none exampleLedgerMTM).1.1 = true
    ∧ (can_take_trade 0 49000 (some "Energy") exampleLedgerMTM).1.1 = true
    ∧ (can_take_trade 0 99000 none
        (update_position_price "AAA" 1000 exampleLedgerMTM)).1
        = (false, .insufficientCapital 99000 90000)
    ∧ (can_take_trade 0 49000 (some "Energy")
        (update_position_price "AAA" 1000 exampleLedgerMTM)).1
        = (false, .sectorExposureExceeded "Energy")
    ∧ (update_position_price "AAA" 1000 exampleLedgerMTM).trades_today
        = exampleLedgerMTM.trades_today
    ∧ (update_position_price "AAA" 1000 exampleLedgerMTM).daily_loss
        = exampleLedgerMTM.daily_loss
    ∧ (update_position_price "AAA" 1000 exampleLedgerMTM).daily_profit
        = exampleLedgerMTM.daily_profit
    ∧ (update_position_price "AAA" 1000
        exampleLedgerMTM).active_positions.length
        = exampleLedgerMTM.active_positions.length
    ∧ (update_position_price "AAA" 1000 exampleLedgerMTM).current_date
        = exampleLedgerMTM.current_date := by
  refine ⟨?_, ?_, ?_, ?_, ?_, ?_, ?_, ?_, ?_⟩
  all_goals
    norm_num [can_take_trade, canAdmitChecks, check_and_reset_daily_counters,
      update_position_price, calculate_sector_exposure,
      Position.position_value, exampleLedgerMTM, posA]
  all_goals decide

/-- C1 counterexample: the close operation (`remove_position`) performs NO
lazy day-reset.  On a ledger whose stored date is 0, with the wall-clock
date 1 differing from it, closing the open "AAA" position at 40 realizes
a loss of 100 on top of the stale counters: afterwards the stored date is
still 0 (not set to today), `trades_today` is still 1 (not reset to 0),
and `daily_loss` is 600 = 500 + 100, accumulated onto the previous day's
total instead of onto a reset ledger. -/
theorem C1_close_skips_reset_counterexample :
    (1 : ℕ) ≠ exampleLedgerMidday.current_date
    ∧ (remove_position "AAA" 40 "SL_HIT"
        exampleLedgerMidday).current_date ≠ 1
    ∧ (remove_position "AAA" 40 "SL_HIT"
        exampleLedgerMidday).trades_today ≠ 0
    ∧ (remove_position "AAA" 40 "SL_HIT" exampleLedgerMidday).daily_loss
        = 600 := by
  refine ⟨?_, ?_, ?_, ?_⟩
  all_goals
    norm_num [remove_position, Ledger.findPosition, realizedPnl,
      fillFirstOpenRecord, exampleLedgerMidday, posA, List.find?]

/-- C1 (amended): the lazy day-reset holds for three of the four public
ledger operations — when the wall-clock date differs from the stored
date, the admission check, open and summary all first replace the state
by `dayResetSpec` (the three counters zeroed, the day's log emptied, the
date set to today) and evaluate everything else on that reset state — but
close (`remove_position`) performs no reset at all: it leaves the stored
date and `trades_today` untouched and realizes P&L against the stale
counters. -/
theorem C1_lazy_reset_amended (today : ℕ) (s : Ledger) (v : ℚ)
    (sec : Option String) (pos : Position) (sym : String) (price : ℚ)
    (tag : String) (h : today ≠ s.current_date) :
    check_and_reset_daily_counters today s = dayResetSpec today s
    ∧ can_take_trade today v sec s
        = (canAdmitChecks v sec (dayResetSpec today s), dayResetSpec today s)
    ∧ add_position today pos s = add_position_body pos (dayResetSpec today s)
    ∧ get_portfolio_summary today s
        = (get_portfolio_summary_body (dayResetSpec today s),
           dayResetSpec today s)
    ∧ (remove_position sym price tag s).current_date = s.current_date
    ∧ (remove_position sym price tag s).trades_today = s.trades_today := by
  have hr : check_and_reset_daily_counters today s = dayResetSpec today s := by
    unfold check_and_reset_daily_counters dayResetSpec
    rw [if_pos h]
  refine ⟨hr, ?_, ?_, ?_, ?_, ?_⟩
  · rw [can_take_trade, hr]
  · rw [add_position, hr]
  · rw [get_portfolio_summary, hr]
  · unfold remove_position
    cases s.findPosition sym
    · rfl
    · simp only []
      split <;> rfl
  · unfold remove_position
    cases s.findPosition sym
    · rfl
    · simp only []
      split <;> rfl

/-- C1 witness: the amended statement instantiated on the mid-day ledger
with wall-clock date 1 differing from the stored date 0. -/
theorem C1_lazy_reset_amended_witness :
    check_and_reset_daily_counters 1 exampleLedgerMidday
      = dayResetSpec 1 exampleLedgerMidday
    ∧ can_take_trade 1 1000 none exampleLedgerMidday
        = (canAdmitChecks 1000 none (dayResetSpec 1 exampleLedgerMidday),
           dayResetSpec 1 exampleLedgerMidday)
    ∧ add_position 1 posA exampleLedgerMidday
        = add_position_body posA (dayResetSpec 1 exampleLedgerMidday)
    ∧ get_portfolio_summary 1 exampleLedgerMidday
        = (get_portfolio_summary_body (dayResetSpec 1 exampleLedgerMidday),
           dayResetSpec 1 exampleLedgerMidday)
    ∧ (remove_position "AAA" 40 "SL_HIT"
        exampleLedgerMidday).current_date
        = exampleLedgerMidday.current_date
    ∧ (remove_position "AAA" 40 "SL_HIT"
        exampleLedgerMidday).trades_today
        = exampleLedgerMidday.trades_today :=
  C1_lazy_reset_amended 1 exampleLedgerMidday 1000 none posA "AAA" 40
    "SL_HIT" (by decide)

/-- C2 counterexample: on a ledger whose daily loss fraction exactly
equals the cap (2000/100000 = 1/50) and whose check 1 passes (0 open
positions against a limit of 3), the admission check REJECTS with the
daily-loss reason — exact equality does not still permit a new trade. -/
theorem C2_equality_rejected_counterexample :
    exampleLedgerAtCap.active_positions.length
      < exampleLedgerAtCap.max_positions
    ∧ |exampleLedgerAtCap.daily_loss| / exampleLedgerAtCap.initial_capital
        = exampleLedgerAtCap.max_daily_loss_percent
    ∧ (can_take_trade 0 1000 none exampleLedgerAtCap).1
        = (false, .dailyLossLimitReached (1/50)) := by
  refine ⟨?_, ?_, ?_⟩
  all_goals
    norm_num [can_take_trade, canAdmitChecks, check_and_reset_daily_counters,
      exampleLedgerAtCap]

/-- C2 (amended): the daily-loss gate rejects at or beyond the cap: on
any ledger state where check 1 passes, the admission check returns the
daily-loss rejection exactly when `abs(daily_loss) / initial_capital` is
greater than OR EQUAL to `max_daily_loss_percent`; a loss exactly at the
cap therefore blocks new trades, and admission past check 2 requires the
fraction to be strictly below the cap. -/
theorem C2_daily_loss_gate_amended (s : Ledger) (v : ℚ)
    (sec : Option String)
    (h1 : s.active_positions.length < s.max_positions) :
    (can_take_trade s.current_date v sec s).1
      = (false, .dailyLossLimitReached
          (|s.daily_loss| / s.initial_capital))
    ↔ s.max_daily_loss_percent ≤ |s.daily_loss| / s.initial_capital := by
  rw [can_take_trade, check_and_reset_same_date]
  simp only [canAdmitChecks, if_neg (not_le.mpr h1)]
  by_cases hcap :
      s.max_daily_loss_percent ≤ |s.daily_loss| / s.initial_capital
  · simp [hcap]
  · simp only [if_neg hcap, eq_false hcap, iff_false]
    intro hcontra
    rcases sec with _ | sec
    · split at hcontra
      · simp_all
      · split at hcontra
        · simp_all
        · split at hcontra
          · simp_all
          · simp_all
    · split at hcontra
      · simp_all
      · split at hcontra
        · simp_all
        · split at hcontra
          · simp_all
          · split at hcontra
            · split at hcontra
              · simp_all
              · split at hcontra
                · simp_all
                · simp_all
            · simp_all

/-- C2 witness: the amended gate instantiated on the at-cap ledger. -/
theorem C2_daily_loss_gate_amended_witness :
    ((can_take_trade exampleLedgerAtCap.current_date 1000 none
        exampleLedgerAtCap).1
      = (false, .dailyLossLimitReached
          (|exampleLedgerAtCap.daily_loss| /
            exampleLedgerAtCap.initial_capital))
    ↔ exampleLedgerAtCap.max_daily_loss_percent
        ≤ |exampleLedgerAtCap.daily_loss| /
            exampleLedgerAtCap.initial_capital) :=
  C2_daily_loss_gate_amended exampleLedgerAtCap 1000 none (by decide)

/-- A quantity bounded by the floor of `a / b` times `b` never exceeds
`a`, for nonnegative `a` and positive `b`. -/
theorem helper_min_mul_le (a b : ℚ) (k : ℤ) (ha : 0 ≤ a) (hb : 0 < b) :
    ((min (pyInt (a / b)) k : ℤ) : ℚ) * b ≤ a := by
  have h1 : ((min (pyInt (a / b)) k : ℤ) : ℚ) ≤ ((pyInt (a / b) : ℤ) : ℚ) := by
    exact_mod_cast min_le_left _ _
  have h2 : ((pyInt (a / b) : ℤ) : ℚ) ≤ a / b := pyInt_le (div_nonneg ha hb.le)
  calc ((min (pyInt (a / b)) k : ℤ) : ℚ) * b
      ≤ (a / b) * b := mul_le_mul_of_nonneg_right (h1.trans h2) hb.le
    _ = a := div_mul_cancel₀ a (ne_of_gt hb)

/-- C3 counterexample: F&O lot sizing DOES apply an upper ceiling — the
hard-coded 999-lot placeholder.  With capital 10000000, medium conviction,
stop distance 1 and lot size 1 (all preconditions satisfied),
floor(riskAmount / riskPerLot) = 100000, yet the returned final quantity
is 999 · 1 = 999, not 100000 · 1 as the claim predicts. -/
theorem C3_lot_cap_counterexample :
    (calculate_position_size_fo 10000000 100 1 1
        ConvictionLevel.medium).toOption.map
      (fun r => (r.max_quantity_by_risk, r.final_quantity))
      = some (100000, 999)
    ∧ pyInt ((10000000 : ℚ) * conviction_risk_map ConvictionLevel.medium
        / (1 * ((1 : ℤ) : ℚ))) = 100000
    ∧ (999 : ℤ) ≠ 100000 * 1 := by
  refine ⟨?_, ?_, ?_⟩
  all_goals
    norm_num [calculate_position_size_fo, conviction_risk_map, pyInt,
      Except.toOption]

/-- C3 (amended): for every valid input (capital > 0, entry > 0,
stopDistancePoints > 0, lotSize > 0), the F&O final lot count equals
`min(floor(riskAmount / riskPerLot), 999)` — the risk-based count capped
by the source's hard-coded 999-lot placeholder rather than by any
allocation fraction — and the final quantity is that lot count times the
lot size. -/
theorem C3_lot_sizing_amended (capital entry slp : ℚ) (lot : ℤ)
    (conv : ConvictionLevel) (_hcap : 0 < capital) (he : 0 < entry)
    (hs : 0 < slp) (hl : 0 < lot) :
    ∃ r, calculate_position_size_fo capital entry slp lot conv = .ok r
      ∧ r.max_quantity_by_risk
          = pyInt (capital * conviction_risk_map conv / (slp * (lot : ℚ)))
      ∧ r.final_quantity = min r.max_quantity_by_risk 999 * lot := by
  have h1 : ¬ entry ≤ 0 := not_le.mpr he
  have h2 : ¬ slp ≤ 0 := not_le.mpr hs
  have h3 : ¬ lot ≤ 0 := not_le.mpr hl
  simp only [calculate_position_size_fo, if_neg h1, if_neg h2, if_neg h3]
  exact ⟨_, rfl, rfl, rfl⟩

/-- C3 witness: the amended lot-sizing law instantiated on Scenario A. -/
theorem C3_lot_sizing_amended_witness :
    ∃ r, calculate_position_size_fo 300000 7780 10 250
          ConvictionLevel.medium = .ok r
      ∧ r.max_quantity_by_risk
          = pyInt (300000 * conviction_risk_map ConvictionLevel.medium
              / (10 * ((250 : ℤ) : ℚ)))
      ∧ r.final_quantity = min r.max_quantity_by_risk 999 * 250 :=
  C3_lot_sizing_amended 300000 7780 10 250 ConvictionLevel.medium
    (by norm_num) (by norm_num) (by norm_num) (by norm_num)

/-- C4: the degenerate-risk failure of `validate_risk_reward` occurs
exactly when `abs(entry - stop) = 0` (the source signals it in-band by
returning `(False, 0, "Risk cannot be zero")` rather than raising a
Python exception); for all inputs with nonzero risk it returns normally
with ratio = reward/risk and pass = (ratio ≥ minRatio); and the other
core sizing operations never abort on any input that satisfies their
stated preconditions — their `ValueError`s are reserved for
precondition violations. -/
theorem C4_degenerate_risk (entry stop target min_rr : ℚ)
    (capital e st mpp e2 slp : ℚ) (lot : ℤ) (conv : ConvictionLevel)
    (he : 0 < e) (hst : 0 < st) (hne : e ≠ st)
    (he2 : 0 < e2) (hslp : 0 < slp) (hlot : 0 < lot) :
    ((validate_risk_reward entry stop target min_rr).2.2
        = RRMessage.riskCannotBeZero ↔ |entry - stop| = 0)
    ∧ (|entry - stop| ≠ 0 →
        validate_risk_reward entry stop target min_rr
          = (decide (min_rr ≤ |target - entry| / |entry - stop|),
             |target - entry| / |entry - stop|,
             RRMessage.rrRatioReport
               (decide (min_rr ≤ |target - entry| / |entry - stop|))))
    ∧ (∃ r, calculate_position_size_equity capital e st conv mpp = .ok r)
    ∧ (∃ r, calculate_position_size_fo capital e2 slp lot conv = .ok r) := by
  refine ⟨?_, ?_, ?_, ?_⟩
  · by_cases h : |entry - stop| = 0
    · simp [validate_risk_reward, h]
    · simp [validate_risk_reward, h]
  · intro h
    simp only [validate_risk_reward, if_neg h]
  · have h1 : ¬ e ≤ 0 := not_le.mpr he
    have h2 : ¬ st ≤ 0 := not_le.mpr hst
    simp only [calculate_position_size_equity, if_neg h1, if_neg h2,
      if_neg hne]
    exact ⟨_, rfl⟩
  · have h1 : ¬ e2 ≤ 0 := not_le.mpr he2
    have h2 : ¬ slp ≤ 0 := not_le.mpr hslp
    have h3 : ¬ lot ≤ 0 := not_le.mpr hlot
    simp only [calculate_position_size_fo, if_neg h1, if_neg h2, if_neg h3]
    exact ⟨_, rfl⟩

/-- C4 witness: entry = stop = 100 hits the degenerate branch; entry 100,
stop 90, target 120 gives ratio 2 with the normal report; the sizing
operations succeed on concrete precondition-satisfying inputs. -/
theorem C4_degenerate_risk_witness :
    ((validate_risk_reward 100 100 120 2).2.2 = RRMessage.riskCannotBeZero)
    ∧ validate_risk_reward 100 90 120 2
        = (decide ((2 : ℚ) ≤ |(120 : ℚ) - 100| / |(100 : ℚ) - 90|),
           |(120 : ℚ) - 100| / |(100 : ℚ) - 90|,
           RRMessage.rrRatioReport
             (decide ((2 : ℚ) ≤ |(120 : ℚ) - 100| / |(100 : ℚ) - 90|)))
    ∧ (∃ r, calculate_position_size_equity 100000 100 90
        ConvictionLevel.medium (3/10) = .ok r)
    ∧ (∃ r, calculate_position_size_fo 100000 100 10 50
        ConvictionLevel.medium = .ok r) := by
  have h0 := C4_degenerate_risk 100 100 120 2 100000 100 90 (3/10) 100 10 50
    ConvictionLevel.medium (by norm_num) (by norm_num) (by norm_num)
    (by norm_num) (by norm_num) (by norm_num)
  have h := C4_degenerate_risk 100 90 120 2 100000 100 90 (3/10) 100 10 50
    ConvictionLevel.medium (by norm_num) (by norm_num) (by norm_num)
    (by norm_num) (by norm_num) (by norm_num)
  exact ⟨h0.1.mpr (by norm_num), h.2.1 (by norm_num), h.2.2.1, h.2.2.2⟩

/-- C5: check 1 always wins — on any ledger state where the open-position
count has reached the cap AND the daily loss is at or beyond its cap, the
admission check returns false with the max-positions reason; the
daily-loss check is never consulted. -/
theorem C5_check1_precedence (s : Ledger) (v : ℚ) (sec : Option String)
    (h1 : s.max_positions ≤ s.active_positions.length)
    (_h2 : s.max_daily_loss_percent ≤ |s.daily_loss| / s.initial_capital) :
    (can_take_trade s.current_date v sec s).1
      = (false, Reason.maxPositionsActive s.max_positions) := by
  rw [can_take_trade, check_and_reset_same_date]
  simp only [canAdmitChecks, if_pos h1]

/-- C5 witness: a ledger with `max_positions = 1`, one open position and
a 3% daily loss (beyond the 2% cap) is rejected with the max-positions
reason. -/
theorem C5_check1_precedence_witness :
    (can_take_trade exampleLedgerBothFail.current_date 1000 none
        exampleLedgerBothFail).1
      = (false, Reason.maxPositionsActive
          exampleLedgerBothFail.max_positions) :=
  C5_check1_precedence exampleLedgerBothFail 1000 none
    (by simp [exampleLedgerBothFail])
    (by norm_num [exampleLedgerBothFail])

/-- C6: for every valid equity-sizing input (capital > 0, entry > 0,
stop > 0, entry ≠ stop, nonnegative allocation fraction) the call
succeeds, the final quantity equals `min(boundByRisk, boundByAllocation)`,
is a nonnegative integer bounded by each bound, and the actual realized
risk (final quantity × risk per share) never exceeds the configured risk
amount (capital × conviction fraction). -/
theorem C6_equity_bounds (capital entry stop mpp : ℚ)
    (conv : ConvictionLevel) (hc : 0 < capital) (he : 0 < entry)
    (hs : 0 < stop) (hne : entry ≠ stop) (hm : 0 ≤ mpp) :
    ∃ r, calculate_position_size_equity capital entry stop conv mpp = .ok r
      ∧ r.final_quantity = min r.max_quantity_by_risk r.max_quantity_by_entry
      ∧ 0 ≤ r.final_quantity
      ∧ r.final_quantity ≤ r.max_quantity_by_risk
      ∧ r.final_quantity ≤ r.max_quantity_by_entry
      ∧ r.actual_risk_amount ≤ r.risk_amount := by
  have h1 : ¬ entry ≤ 0 := not_le.mpr he
  have h2 : ¬ stop ≤ 0 := not_le.mpr hs
  have hrps : (0:ℚ) < |entry - stop| := abs_pos.mpr (sub_ne_zero.mpr hne)
  have hra : (0:ℚ) ≤ capital * conviction_risk_map conv :=
    le_of_lt (mul_pos hc (conviction_risk_map_pos conv))
  have hbr : 0 ≤ pyInt (capital * conviction_risk_map conv / |entry - stop|) :=
    pyInt_nonneg (div_nonneg hra hrps.le)
  have hbe : 0 ≤ pyInt (capital * mpp / entry) :=
    pyInt_nonneg (div_nonneg (mul_nonneg hc.le hm) he.le)
  simp only [calculate_position_size_equity, if_neg h1, if_neg h2, if_neg hne]
  exact ⟨_, rfl, rfl, le_min hbr hbe, min_le_left _ _, min_le_right _ _,
    helper_min_mul_le (capital * conviction_risk_map conv) |entry - stop|
      (pyInt (capital * mpp / entry)) hra hrps⟩

/-- C6 witness: the equity bounds instantiated on Scenario C. -/
theorem C6_equity_bounds_witness :
    ∃ r, calculate_position_size_equity 200000 3950 3850
          ConvictionLevel.medium (3/10) = .ok r
      ∧ r.final_quantity = min r.max_quantity_by_risk r.max_quantity_by_entry
      ∧ 0 ≤ r.final_quantity
      ∧ r.final_quantity ≤ r.max_quantity_by_risk
      ∧ r.final_quantity ≤ r.max_quantity_by_entry
      ∧ r.actual_risk_amount ≤ r.risk_amount :=
  C6_equity_bounds 200000 3950 3850 (3/10) ConvictionLevel.medium
    (by norm_num) (by norm_num) (by norm_num) (by norm_num) (by norm_num)

/-- C8: round-trip at the entry price — opening a fresh position and then
closing it at exactly its entry price realizes a P&L of exactly 0, and
neither `daily_loss` nor `daily_profit` changes as a result of the close
(a zero outcome is counted as neither profit nor loss). -/
theorem C8_round_trip (today : ℕ) (s : Ledger) (pos : Position)
    (tag : String) (hfresh : s.findPosition pos.symbol = none) :
    realizedPnl pos pos.entry_price = 0
    ∧ (remove_position pos.symbol pos.entry_price tag
        (add_position today pos s)).daily_loss
        = (add_position today pos s).daily_loss
    ∧ (remove_position pos.symbol pos.entry_price tag
        (add_position today pos s)).daily_profit
        = (add_position today pos s).daily_profit := by
  have hpnl : realizedPnl pos pos.entry_price = 0 := by
    unfold realizedPnl
    split <;> simp
  have hact : (check_and_reset_daily_counters today s).active_positions
      = s.active_positions := by
    unfold check_and_reset_daily_counters
    split <;> rfl
  have hfind0 : (check_and_reset_daily_counters today
      s).active_positions.find? (fun p => p.symbol = pos.symbol) = none := by
    rw [hact]
    exact hfresh
  have hfind1 : (add_position today pos s).findPosition pos.symbol
      = some pos := by
    rw [add_position]
    unfold add_position_body
    rw [if_neg (by rw [Ledger.findPosition, hfind0]; simp)]
    unfold Ledger.findPosition
    simp only []
    rw [find?_append_of_none _ _ hfind0]
    simp [List.find?]
  refine ⟨hpnl, ?_, ?_⟩ <;>
  · simp only [remove_position, hfind1, hpnl]
    simp

/-- C8 witness: the round trip on a fresh ledger with position `posA`. -/
theorem C8_round_trip_witness :
    realizedPnl posA posA.entry_price = 0
    ∧ (remove_position posA.symbol posA.entry_price "TARGET_HIT"
        (add_position 0 posA exampleLedgerFresh)).daily_loss
        = (add_position 0 posA exampleLedgerFresh).daily_loss
    ∧ (remove_position posA.symbol posA.entry_price "TARGET_HIT"
        (add_position 0 posA exampleLedgerFresh)).daily_profit
        = (add_position 0 posA exampleLedgerFresh).daily_profit :=
  C8_round_trip 0 exampleLedgerFresh posA "TARGET_HIT" rfl

/-- C9: a same-date admission check is a pure read — the post-call ledger
state is exactly the pre-call state (no field changes), and the decision
is the pure function `canAdmitChecks` of the current state and the call's
arguments, re-evaluated from scratch on every call. -/
theorem C9_admission_pure_frame (today : ℕ) (s : Ledger) (v : ℚ)
    (sec : Option String) (h : today = s.current_date) :
    (can_take_trade today v sec s).2 = s
    ∧ (can_take_trade today v sec s).1 = canAdmitChecks v sec s := by
  subst h
  rw [can_take_trade, check_and_reset_same_date]
  exact ⟨rfl, rfl⟩

/-- C9 witness: the frame property instantiated on the one-position
ledger at its stored date. -/
theorem C9_admission_pure_frame_witness :
    (can_take_trade 0 1000 none exampleLedgerMTM).2 = exampleLedgerMTM
    ∧ (can_take_trade 0 1000 none exampleLedgerMTM).1
        = canAdmitChecks 1000 none exampleLedgerMTM :=
  C9_admission_pure_frame 0 exampleLedgerMTM 1000 none rfl
